import Mathlib

/-!
Verification development for the MVP Generation Agent repository.

The repository ships a React frontend (project/feature CRUD, validation
display, MVP-generation views) together with project documentation.  The
Python backend (decision policy, response parser, model gateway, effort
estimator) is not part of the shipped sources; where a claim depends on it,
the corresponding definition is modelled from the specification and is
marked as such in its doc comment.  All numeric scores are embedded as
rationals so that every definition is executable and every concrete
evaluation is decidable.
-/

namespace MVPAgent

/-- The four decision labels `ACCEPT | MODIFY | DEFER | REJECT`.  These are
the exact keys of `getDecisionColor` in the frontend dashboard
(src/unnamed/part_004) and of `getDecisionStyle` in ValidationResult.jsx. -/
inductive Decision where
  | ACCEPT
  | MODIFY
  | DEFER
  | REJECT
deriving DecidableEq, Repr

/-- The Score record: four numeric dimensions, as displayed by the frontend
(`core_mvp_score`, `user_value_score`, `complexity_score`, `overall_score`). -/
structure Score where
  core_mvp_score : ℚ
  user_value_score : ℚ
  complexity_score : ℚ
  overall_score : ℚ
deriving DecidableEq, Repr

/-- A Score is valid when all four fields lie in [0, 10]. -/
def validScore (s : Score) : Prop :=
  0 ≤ s.core_mvp_score ∧ s.core_mvp_score ≤ 10 ∧
  0 ≤ s.user_value_score ∧ s.user_value_score ≤ 10 ∧
  0 ≤ s.complexity_score ∧ s.complexity_score ≤ 10 ∧
  0 ≤ s.overall_score ∧ s.overall_score ≤ 10

instance (s : Score) : Decidable (validScore s) := by
  unfold validScore; exact inferInstance

/-- Modelled from the spec: the backend overall-score formula.  The backend
scoring code is absent from the shipped sources; spec §3 states that
`overall` is a fixed weighted combination of the other three fields and
spec §8 describes the combination as weights on mvp, value, and
complexity-inverse.  The complexity-inverse of `c` is `10 - c`, so
`overallScore w1 w2 w3 m v c = w1*m + w2*v + w3*(10 - c)`. -/
def overallScore (w1 w2 w3 mvp value complexity : ℚ) : ℚ :=
  w1 * mvp + w2 * value + w3 * (10 - complexity)

/-- The overall-score instance with the weight triple (0.4, 0.3, 0.3)
stated in spec §8 and in claims C1/C2. -/
def specOverall (mvp value complexity : ℚ) : ℚ :=
  overallScore (4/10) (3/10) (3/10) mvp value complexity

/-- Modelled from the spec: the weight triple actually consistent with the
repository's own documented test results (src/unnamed/part_001):
(8,7,5) ↦ 6.9, (5,9,9) ↦ 5.4, (10,8,3) ↦ 8.55.  These three data points
determine the weights of `overallScore` uniquely as (0.4, 0.35, 0.25). -/
def docOverall (mvp value complexity : ℚ) : ℚ :=
  overallScore (4/10) (35/100) (25/100) mvp value complexity

/-- Modelled from the spec: the backend Decision Policy.  The backend code
is absent; spec §4.1 describes a deterministic threshold function on
`overall_score` and `complexity_score` (high value but high complexity →
MODIFY; high overall → ACCEPT; moderate overall → DEFER; low overall →
REJECT), with ties at threshold boundaries resolving toward the more
conservative decision.  The thresholds below reproduce every decision
documented in src/unnamed/part_001: (8,7,5 | 6.9) → ACCEPT,
(5,9,9 | 5.4) → MODIFY, (10,8,3 | 8.55) → ACCEPT. -/
def decisionPolicy (s : Score) : Decision :=
  if 8 ≤ s.user_value_score ∧ 8 ≤ s.complexity_score then .MODIFY
  else if 13/2 < s.overall_score then .ACCEPT
  else if 4 < s.overall_score then .DEFER
  else .REJECT

/-- Clamp a parsed numeric value into [0, 10]. -/
def clamp (x : ℚ) : ℚ := max 0 (min x 10)

/-- C1: with the weight triple (0.4, 0.3, 0.3) claimed by the spec the
scenario Score (8, 7, 5) evaluates to overall 6.8 exactly, which is not
approximately 6.9 (it does not lie within 0.05 of 6.9, i.e. it does not
round to 6.9 at the one-decimal precision used by the repository's own
test report, which states 6.9 exactly). -/
theorem spec_weights_miss_documented_overall :
    specOverall 8 7 5 = 34/5 ∧ ¬ |specOverall 8 7 5 - 69/10| < 1/20 := by
  constructor
  · norm_num [specOverall, overallScore]
  · have h : specOverall 8 7 5 - 69/10 = -(1/10) := by
      norm_num [specOverall, overallScore]
    rw [h, abs_neg, abs_of_pos (by norm_num)]
    norm_num

/-- C1 (amended): with the weight triple (0.4, 0.35, 0.25) — the unique
triple reproducing all three overall scores documented in
src/unnamed/part_001 — the scenario Score (8, 7, 5) evaluates to overall
6.9 exactly, and the Decision Policy applied to that Score yields ACCEPT. -/
theorem auth_scenario_overall_and_accept :
    docOverall 8 7 5 = 69/10 ∧
    decisionPolicy ⟨8, 7, 5, docOverall 8 7 5⟩ = .ACCEPT := by
  constructor
  · norm_num [docOverall, overallScore]
  · norm_num [docOverall, overallScore, decisionPolicy]

/-- C2: with the weight triple (0.4, 0.3, 0.3) claimed by the spec the
scenario Score (5, 9, 9) evaluates to overall 5.0 exactly, which is not
approximately 5.4 (it is 0.4 away from the 5.4 documented by the
repository's test report). -/
theorem spec_weights_miss_documented_overall_modify :
    specOverall 5 9 9 = 5 ∧ ¬ |specOverall 5 9 9 - 27/5| < 1/20 := by
  constructor
  · norm_num [specOverall, overallScore]
  · have h : specOverall 5 9 9 - 27/5 = -(2/5) := by
      norm_num [specOverall, overallScore]
    rw [h, abs_neg, abs_of_pos (by norm_num)]
    norm_num

/-- C2 (amended): with the weight triple (0.4, 0.35, 0.25) the scenario
Score (5, 9, 9) evaluates to overall 5.4 exactly, and the Decision Policy
applied to that Score yields MODIFY (high value, high complexity). -/
theorem recommendation_scenario_overall_and_modify :
    docOverall 5 9 9 = 27/5 ∧
    decisionPolicy ⟨5, 9, 9, docOverall 5 9 9⟩ = .MODIFY := by
  constructor
  · norm_num [docOverall, overallScore]
  · norm_num [docOverall, overallScore, decisionPolicy]

/-- C3: for every Score with all fields in [0,10] the Decision Policy is a
total deterministic function returning exactly one of the four labels:
it always returns one of ACCEPT/MODIFY/DEFER/REJECT, it returns equal
results on equal inputs, and the returned label is unique. -/
theorem decisionPolicy_total_deterministic (s : Score) (_h : validScore s) :
    (decisionPolicy s = .ACCEPT ∨ decisionPolicy s = .MODIFY ∨
     decisionPolicy s = .DEFER ∨ decisionPolicy s = .REJECT) ∧
    (∀ s' : Score, s' = s → decisionPolicy s' = decisionPolicy s) ∧
    (∀ d₁ d₂ : Decision,
      decisionPolicy s = d₁ → decisionPolicy s = d₂ → d₁ = d₂) := by
  refine ⟨?_, ?_, ?_⟩
  · cases hd : decisionPolicy s
    · exact Or.inl rfl
    · exact Or.inr (Or.inl rfl)
    · exact Or.inr (Or.inr (Or.inl rfl))
    · exact Or.inr (Or.inr (Or.inr rfl))
  · intro s' hs; rw [hs]
  · intro d₁ d₂ h₁ h₂; rw [← h₁, h₂]

/-- Witness for C3: the documented authentication scenario Score is valid
and the theorem applies to it. -/
theorem decisionPolicy_total_deterministic_witness :
    validScore ⟨8, 7, 5, 69/10⟩ ∧
    (decisionPolicy ⟨8, 7, 5, 69/10⟩ = .ACCEPT ∨
     decisionPolicy ⟨8, 7, 5, 69/10⟩ = .MODIFY ∨
     decisionPolicy ⟨8, 7, 5, 69/10⟩ = .DEFER ∨
     decisionPolicy ⟨8, 7, 5, 69/10⟩ = .REJECT) :=
  ⟨by norm_num [validScore],
   (decisionPolicy_total_deterministic ⟨8, 7, 5, 69/10⟩ (by norm_num [validScore])).1⟩

/-- The error taxonomy of spec §7: gateway errors, the parser error, and
the input-validation error. -/
inductive PipelineError where
  | AuthError
  | TimeoutError
  | RateLimited
  | UpstreamError
  | ParseError
  | ValidationInputError
deriving DecidableEq, Repr

/-- Modelled from the spec: the structured block recoverable from the raw
model output (spec §4.2/§4.4/§6).  The backend parser code is absent from
the shipped sources, so raw response text is abstracted to its recoverable
content: the three component scores as parsed (possibly out of range), the
model's own stated decision (which per §4.4 must never be trusted), the
rationale, the optional auxiliary lists, the timeline impact, and the
confidence value. -/
structure RawBlock where
  raw_core_mvp : ℚ
  raw_user_value : ℚ
  raw_complexity : ℚ
  statedDecision : String
  rationale : String
  alternatives : Option (List String)
  dependencies : Option (List String)
  timeline_impact : String
  confidence : ℚ
deriving DecidableEq, Repr

/-- The ValidationResult record of spec §3/§6: one Score, one decision
label, rationale, alternatives, dependencies, timeline impact, confidence. -/
structure ValidationResult where
  score : Score
  decision : Decision
  rationale : String
  alternatives : List String
  dependencies : List String
  timeline_impact : String
  confidence : ℚ
deriving DecidableEq, Repr

/-- Modelled from the spec: the backend Response Parser (spec §4.4).  The
backend code is absent.  Raw text is abstracted as `Option RawBlock`
(`none` = no structured block is recoverable at all, giving `ParseError`).
Parsed component scores are clamped into [0,10]; missing optional lists
default to empty; the overall score is recomputed by the documented
formula; and the decision is recomputed by the Decision Policy from the
parsed Score — the model's own stated decision is ignored. -/
def parseResponse (raw : Option RawBlock) : Except PipelineError ValidationResult :=
  match raw with
  | none => .error .ParseError
  | some b =>
    let mvp := clamp b.raw_core_mvp
    let value := clamp b.raw_user_value
    let comp := clamp b.raw_complexity
    let score : Score := ⟨mvp, value, comp, docOverall mvp value comp⟩
    .ok { score := score
          decision := decisionPolicy score
          rationale := b.rationale
          alternatives := b.alternatives.getD []
          dependencies := b.dependencies.getD []
          timeline_impact := b.timeline_impact
          confidence := b.confidence }

/-- Outcome of one external call made by the Model Gateway: either raw
response text (abstracted to its recoverable structured content) or a
gateway failure. -/
inductive CallOutcome where
  | ok (raw : Option RawBlock)
  | err (e : PipelineError)
deriving DecidableEq, Repr

/-- Modelled from the spec: the Model Gateway retry discipline (spec
§4.3/§7).  The backend code is absent.  The external service is abstracted
as a function from attempt index to outcome.  Transient errors
(`TimeoutError`, `RateLimited`) are retried exactly once and then surfaced
as-is; all other errors are surfaced immediately without retry.  The
second component of the result counts the external calls performed. -/
def gatewaySend (service : ℕ → CallOutcome) :
    Except PipelineError (Option RawBlock) × ℕ :=
  match service 0 with
  | .ok raw => (.ok raw, 1)
  | .err e =>
    if e = .TimeoutError ∨ e = .RateLimited then
      match service 1 with
      | .ok raw => (.ok raw, 2)
      | .err e2 => (.error e2, 2)
    else (.error e, 1)

/-- The priority enum of the inbound request (spec §6, frontend forms). -/
inductive Priority where
  | low
  | medium
  | high
deriving DecidableEq, Repr

/-- The inbound validation request of spec §6. -/
structure FeatureRequest where
  feature_name : String
  feature_description : String
  user_story : Option String
  acceptance_criteria : List String
  priority : Priority
deriving DecidableEq, Repr

/-- Modelled from the spec: the Validation Orchestrator (spec §4.6/§7).
The backend code is absent.  A request with an empty name or description
is rejected with `ValidationInputError` before any external call; otherwise
the composed pipeline runs Gateway → Parser (which itself recomputes the
decision via the Decision Policy).  The second component of the result
counts the external calls performed. -/
def validateFeature (req : FeatureRequest) (service : ℕ → CallOutcome) :
    Except PipelineError ValidationResult × ℕ :=
  if req.feature_name = "" ∨ req.feature_description = "" then
    (.error .ValidationInputError, 0)
  else
    match gatewaySend service with
    | (.ok raw, n) => (parseResponse raw, n)
    | (.error e, n) => (.error e, n)

/-- C4: every ValidationResult produced by the parser carries the decision
recomputed by the Decision Policy from its parsed Score, and the model's
own stated decision has no influence on the parser's output at all. -/
theorem decision_recomputed_from_score (b : RawBlock) (r : ValidationResult)
    (h : parseResponse (some b) = .ok r) :
    r.decision = decisionPolicy r.score ∧
    ∀ d : String, parseResponse (some { b with statedDecision := d }) =
      parseResponse (some b) := by
  constructor
  · simp only [parseResponse, Except.ok.injEq] at h
    subst h
    rfl
  · intro d
    simp only [parseResponse]

/-- Witness for C4: the parser applied to a concrete raw block (whose
stated decision is REJECT) produces a result whose decision is the
Decision Policy value ACCEPT, recomputed from its parsed Score. -/
theorem decision_recomputed_from_score_witness :
    parseResponse (some ⟨8, 7, 5, "REJECT", "r", none, none, "t", 9/10⟩) =
      .ok ⟨⟨8, 7, 5, 69/10⟩, .ACCEPT, "r", [], [], "t", 9/10⟩ ∧
    Decision.ACCEPT = decisionPolicy (⟨8, 7, 5, 69/10⟩ : Score) := by
  have hparse : parseResponse (some ⟨8, 7, 5, "REJECT", "r", none, none, "t", 9/10⟩) =
      .ok ⟨⟨8, 7, 5, 69/10⟩, .ACCEPT, "r", [], [], "t", 9/10⟩ := by
    norm_num [parseResponse, clamp, docOverall, overallScore, decisionPolicy]
  exact ⟨hparse, (decision_recomputed_from_score _ _ hparse).1⟩

/-- C5: the parser clamps every parsed numeric score into [0,10] instead of
failing: clamped values always lie in [0,10], a parsed 14 becomes 10, a
parsed -3 becomes 0, and on any recoverable structured block the parser
returns a ValidationResult (never a ParseError) whose component scores are
the clamped parsed values. -/
theorem parser_clamps_out_of_range :
    (∀ x : ℚ, 0 ≤ clamp x ∧ clamp x ≤ 10) ∧
    clamp 14 = 10 ∧ clamp (-3) = 0 ∧
    ∀ b : RawBlock, ∃ r : ValidationResult,
      parseResponse (some b) = .ok r ∧
      r.score.core_mvp_score = clamp b.raw_core_mvp ∧
      r.score.user_value_score = clamp b.raw_user_value ∧
      r.score.complexity_score = clamp b.raw_complexity := by
  refine ⟨?_, ?_, ?_, ?_⟩
  · intro x
    exact ⟨le_max_left 0 _, max_le (by norm_num) (min_le_right x 10)⟩
  · norm_num [clamp]
  · norm_num [clamp]
  · intro b
    exact ⟨_, rfl, rfl, rfl, rfl⟩

/-- C6: when the first gateway attempt times out and the retry succeeds,
the caller receives the successful response and exactly two external calls
were made (one retry, none after the success); when both attempts time
out, the TimeoutError is surfaced as-is after two calls. -/
theorem gateway_retries_timeout_once (service : ℕ → CallOutcome)
    (raw : Option RawBlock)
    (h0 : service 0 = .err .TimeoutError) (h1 : service 1 = .ok raw) :
    gatewaySend service = (.ok raw, 2) ∧
    ∀ service' : ℕ → CallOutcome,
      service' 0 = .err .TimeoutError → service' 1 = .err .TimeoutError →
      gatewaySend service' = (.error .TimeoutError, 2) := by
  constructor
  · simp [gatewaySend, h0, h1]
  · intro service' h0' h1'
    simp [gatewaySend, h0', h1']

/-- Witness for C6: a concrete service that times out on the first call
and succeeds on the second. -/
theorem gateway_retries_timeout_once_witness :
    gatewaySend (fun n => if n = 0 then .err .TimeoutError else .ok none) =
      (.ok none, 2) :=
  (gateway_retries_timeout_once
    (fun n => if n = 0 then .err .TimeoutError else .ok none)
    none rfl rfl).1

/-- C7: a validation request whose feature name or description is empty is
rejected with the typed `ValidationInputError` before any external call
(zero calls performed), and an error outcome is always distinguishable
from a successful ValidationResult. -/
theorem empty_input_rejected_before_call (req : FeatureRequest)
    (service : ℕ → CallOutcome)
    (h : req.feature_name = "" ∨ req.feature_description = "") :
    validateFeature req service = (.error .ValidationInputError, 0) ∧
    ∀ (e : PipelineError) (r : ValidationResult),
      (Except.error e : Except PipelineError ValidationResult) ≠ .ok r := by
  constructor
  · simp [validateFeature, h]
  · intro e r hc
    exact Except.noConfusion hc

/-- Witness for C7: a concrete request with an empty name is rejected with
zero external calls, whatever the service would have answered. -/
theorem empty_input_rejected_before_call_witness :
    validateFeature ⟨"", "Secure login", none, [], .high⟩ (fun _ => .ok none) =
      (.error .ValidationInputError, 0) :=
  (empty_input_rejected_before_call ⟨"", "Secure login", none, [], .high⟩
    (fun _ => .ok none) (Or.inl rfl)).1

/-- Feature lifecycle status, as used by the frontend dashboard's
`getStatusColor` (src/unnamed/part_004) and by `MVPGenerator`'s filter. -/
inductive FeatureStatus where
  | PENDING
  | APPROVED
  | REJECTED
  | IN_DEVELOPMENT
  | COMPLETED
deriving DecidableEq, Repr

/-- A project-owned Feature as rendered by the frontend: name, description,
priority, lifecycle status, optional user story. -/
structure ProjFeature where
  feature_name : String
  feature_description : String
  priority : Priority
  status : FeatureStatus
  user_story : Option String
deriving DecidableEq, Repr

/-- `approvedFeatures` from the MVPGenerator component
(src/unnamed/part_004 line 31):
`features?.filter(f => f.status === 'APPROVED') || []`. -/
def approvedFeatures (features : List ProjFeature) : List ProjFeature :=
  features.filter (fun f => f.status == FeatureStatus.APPROVED)

/-- The disabled condition of the MVPGenerator's Generate button
(src/unnamed/part_004 line 46): `generating || approvedFeatures.length === 0`. -/
def mvpGeneratorDisabled (generating : Bool) (features : List ProjFeature) : Bool :=
  generating || (approvedFeatures features).length == 0

/-- The guard at the top of `App.generateMVP` (src/unnamed/part_002 lines
179-182): generation is blocked only when there is no current project or
the feature list is empty — the features' statuses are not consulted. -/
def appGenerateMVPBlocked (hasProject : Bool) (features : List ProjFeature) : Bool :=
  !hasProject || features.length == 0

/-- Modelled from the spec: the backend generate-MVP aggregation (spec §3,
MVPDefinition).  The backend code is absent; per the spec the
MVPDefinition's core-feature subset is built on demand from exactly the
owning Project's approved Features. -/
def mvpCoreFeatures (features : List ProjFeature) : List ProjFeature :=
  approvedFeatures features

/-- C8: the claim that generation is never offered without approved
Features fails on the main App view: for a project holding a single
PENDING feature, the MVPGenerator filter finds no approved feature, yet
`App.generateMVP` is not blocked (the generation request would be sent). -/
theorem app_offers_generation_without_approved :
    approvedFeatures [⟨"Login", "Secure login", .high, .PENDING, none⟩] = [] ∧
    appGenerateMVPBlocked true [⟨"Login", "Secure login", .high, .PENDING, none⟩]
      = false := by
  constructor
  · rfl
  · rfl

/-- C8 (amended): the modelled generate-MVP aggregation builds the
core-feature subset from exactly the owning Project's approved Features
(a feature is in the subset iff it is owned and its status is APPROVED);
the MVPGenerator view does not offer generation when the Project has no
approved Features; but the main App view blocks generation only when the
feature list is empty, regardless of statuses. -/
theorem mvp_core_features_are_approved :
    (∀ (fs : List ProjFeature) (f : ProjFeature),
      f ∈ mvpCoreFeatures fs ↔ f ∈ fs ∧ f.status = FeatureStatus.APPROVED) ∧
    (∀ (fs : List ProjFeature) (g : Bool),
      (approvedFeatures fs).length = 0 → mvpGeneratorDisabled g fs = true) ∧
    (∀ (hasProject : Bool) (fs : List ProjFeature),
      appGenerateMVPBlocked hasProject fs = (!hasProject || fs.length == 0)) := by
  refine ⟨?_, ?_, ?_⟩
  · intro fs f
    simp [mvpCoreFeatures, approvedFeatures, List.mem_filter]
  · intro fs g h
    simp [mvpGeneratorDisabled, h]
  · intro hasProject fs
    rfl

/-- Witness for C8 (amended): with one PENDING feature the approved subset
is empty and the MVPGenerator button is disabled even when not generating. -/
theorem mvp_core_features_are_approved_witness :
    (approvedFeatures [⟨"Login", "Secure login", .high, .PENDING, none⟩]).length = 0 ∧
    mvpGeneratorDisabled false [⟨"Login", "Secure login", .high, .PENDING, none⟩]
      = true :=
  ⟨rfl, (mvp_core_features_are_approved).2.1
    [⟨"Login", "Secure login", .high, .PENDING, none⟩] false rfl⟩

/-- Team experience levels offered by the ProjectCreator form
(src/unnamed/part_004 lines 430-435). -/
inductive TeamExperience where
  | beginner
  | intermediate
  | advanced
  | expert
deriving DecidableEq, Repr

/-- Modelled from the spec: the team-experience multiplier table of the
backend Effort Estimator.  The backend code is absent; the ProjectCreator
help text (src/unnamed/part_004 line 761) and SETUP_GUIDE.md document
"Expert teams get 50% reduction, beginners get 80% increase", with
intermediate as the baseline; the advanced multiplier is not documented
and is modelled as a value strictly between the two. -/
def expFactor : TeamExperience → ℚ
  | .beginner => 9/5
  | .intermediate => 1
  | .advanced => 3/4
  | .expert => 1/2

/-- The grouped tech-stack selection of the ProjectCreator form
(src/unnamed/part_004 lines 396-402): frontend, backend, database, cloud,
integrations tag lists. -/
structure TechStack where
  frontend : List String
  backend : List String
  database : List String
  cloud : List String
  integrations : List String
deriving DecidableEq, Repr

/-- Modelled from the spec: the per-tag adjustment factor of the Effort
Estimator (spec §4.5).  The backend table is absent; SETUP_GUIDE.md
documents an Auth0 reduction of 44% as an example, every factor is a
positive multiplier, and unrecognized tags contribute the neutral 1. -/
def tagFactor (tag : String) : ℚ :=
  if tag = "Auth0" then 14/25
  else if tag = "React" then 9/10
  else if tag = "Firebase" then 4/5
  else 1

/-- Modelled from the spec: the combined tech-stack adjustment — the
product of the per-tag factors over every selected tag in every category. -/
def stackFactor (stack : TechStack) : ℚ :=
  ((stack.frontend ++ stack.backend ++ stack.database ++
    stack.cloud ++ stack.integrations).map tagFactor).prod

/-- Modelled from the spec: base hours from the complexity score via a
fixed linear scale (spec §4.5); the complexity input is clamped as
everywhere else, and the base is strictly positive. -/
def baseHours (complexity : ℚ) : ℚ := 20 + 10 * clamp complexity

/-- Modelled from the spec: the Effort Estimator (spec §4.5) — base hours
multiplied by the tech-stack adjustment and the team-experience
multiplier.  A pure function of its three inputs. -/
def estimateHours (complexity : ℚ) (stack : TechStack)
    (exp : TeamExperience) : ℚ :=
  baseHours complexity * stackFactor stack * expFactor exp

/-- Every per-tag factor is strictly positive. -/
theorem tagFactor_pos (tag : String) : 0 < tagFactor tag := by
  unfold tagFactor
  split
  · norm_num
  · split
    · norm_num
    · split
      · norm_num
      · norm_num

/-- The combined tech-stack adjustment is strictly positive. -/
theorem stackFactor_pos (stack : TechStack) : 0 < stackFactor stack := by
  unfold stackFactor
  apply List.prod_pos
  intro a ha
  rcases List.mem_map.mp ha with ⟨t, _, rfl⟩
  exact tagFactor_pos t

/-- The base-hours scale is strictly positive. -/
theorem baseHours_pos (complexity : ℚ) : 0 < baseHours complexity := by
  unfold baseHours
  have h : 0 ≤ clamp complexity := le_max_left 0 _
  linarith

/-- C9: for every complexity and tech-stack selection, the estimate with
expert experience is strictly lower than with intermediate and the
estimate with beginner experience is strictly higher, by the fixed
documented multipliers: expert = 1/2 of intermediate (50% reduction) and
beginner = 9/5 of intermediate (80% increase). -/
theorem estimate_monotone_in_experience (complexity : ℚ) (stack : TechStack) :
    estimateHours complexity stack .expert
      < estimateHours complexity stack .intermediate ∧
    estimateHours complexity stack .intermediate
      < estimateHours complexity stack .beginner ∧
    estimateHours complexity stack .expert
      = 1/2 * estimateHours complexity stack .intermediate ∧
    estimateHours complexity stack .beginner
      = 9/5 * estimateHours complexity stack .intermediate := by
  have hB : 0 < baseHours complexity * stackFactor stack :=
    mul_pos (baseHours_pos complexity) (stackFactor_pos stack)
  unfold estimateHours expFactor
  refine ⟨?_, ?_, by ring, by ring⟩
  · nlinarith
  · nlinarith

/-- The user-supplied tech-stack selection of the App payload model; the
JS constant in `App.createProject` has exactly the three keys frontend,
backend, database. -/
structure AppTechStack where
  frontend : List String
  backend : List String
  database : List String
deriving DecidableEq, Repr

/-- The fixed constant spliced into every create-project payload by
`App.createProject` (src/unnamed/part_002 lines 88-92). -/
def fixedTechStack : AppTechStack :=
  ⟨["React"], ["Node.js"], ["PostgreSQL"]⟩

/-- The user-supplied project data of the main App's ProjectForm
(src/unnamed/part_002 lines 330-336), extended with an optional
tech-stack field to model arbitrary tech-stack information the caller
might supply. -/
structure ProjectFormData where
  name : String
  description : String
  industry : String
  target_users : String
  reference_url : String
  tech_stack : Option AppTechStack
deriving DecidableEq, Repr

/-- The request body sent to POST /api/v1/projects by the main App. -/
structure ProjectPayload where
  name : String
  description : String
  industry : String
  target_users : String
  reference_url : String
  tech_stack : AppTechStack
deriving DecidableEq, Repr

/-- `App.createProject` payload construction (src/unnamed/part_002 lines
86-93): `{ ...projectData, tech_stack: {frontend:["React"], backend:
["Node.js"], database:["PostgreSQL"]} }` — the trailing `tech_stack`
property overrides anything the spread contributed. -/
def createProjectPayload (pd : ProjectFormData) : ProjectPayload :=
  { name := pd.name
    description := pd.description
    industry := pd.industry
    target_users := pd.target_users
    reference_url := pd.reference_url
    tech_stack := fixedTechStack }

/-- C10: the tech_stack of every payload built by `App.createProject` is
the fixed constant {frontend:["React"], backend:["Node.js"],
database:["PostgreSQL"]}, whatever tech-stack information the
user-supplied project data carried. -/
theorem createProject_fixed_tech_stack :
    (∀ pd : ProjectFormData,
      (createProjectPayload pd).tech_stack = fixedTechStack) ∧
    (∀ (pd : ProjectFormData) (ts : AppTechStack),
      (createProjectPayload { pd with tech_stack := some ts }).tech_stack
        = fixedTechStack) ∧
    fixedTechStack = ⟨["React"], ["Node.js"], ["PostgreSQL"]⟩ := by
  exact ⟨fun _ => rfl, fun _ _ => rfl, rfl⟩

end MVPAgent
